import Mathlib

/-!
Verification of the River-Hackathon traffic-RAG backend.

The repository fetches Austin traffic-incident records, renders them as PDFs,
extracts their text, stores embeddings in a Chroma collection, and answers
queries by retrieving similar documents and sending them to one of three LLM
backends.  External collaborators (HTTP client, ChromaDB, PyMuPDF, the LLM
APIs, the sentence encoder) are modelled as abstract inputs; the repository's
own orchestration code is embedded faithfully below.
-/

namespace RiverRAG

/-! ## LLM handler: retry wrapper (llm_handler.py, generate_response)

The decorator is tenacity
retry(stop=stop_after_attempt(3), wait=wait_exponential(multiplier=1, min=4, max=10)).
We model the stream of underlying provider-call outcomes as a function from the
attempt number (starting at 1) to an outcome. -/

/-- Outcome of one underlying provider call inside generate_response:
either the generated string or a raised exception message. -/
inductive Attempt : Type where
  | ok (answer : String)
  | err (msg : String)
deriving DecidableEq

/-- Result of the tenacity-wrapped call: the generated string, or (since the
decorator does not set reraise=True) a tenacity RetryError wrapping the last
attempt's exception. -/
inductive RetryResult : Type where
  | ok (answer : String)
  | retryError (lastMsg : String)
deriving DecidableEq

/-- tenacity wait_exponential(multiplier, min, max): the wait suggested after
attempt number n is multiplier * 2 ^ n clamped into [min, max] (whether the
exponent is n or n - 1 across tenacity versions does not matter below, because
with multiplier = 1, min = 4, max = 10 both waits are clamped up to 4). -/
def wait_exponential (multiplier lo hi n : Nat) : Nat :=
  max lo (min hi (multiplier * 2 ^ n))

/-- The waits tenacity inserts between the (at most three) attempts of
generate_response, with multiplier = 1, min = 4, max = 10. -/
def generate_response_waits : List Nat :=
  [wait_exponential 1 4 10 1, wait_exponential 1 4 10 2]

/-- tenacity semantics of retry(stop=stop_after_attempt(3)) applied to
generate_response: attempt 1; on failure attempt 2; on failure attempt 3; if
that also fails, a RetryError wrapping the third exception propagates. -/
def retried_generate_response (call : Nat → Attempt) : RetryResult :=
  match call 1 with
  | Attempt.ok s => RetryResult.ok s
  | Attempt.err _ =>
    match call 2 with
    | Attempt.ok s => RetryResult.ok s
    | Attempt.err _ =>
      match call 3 with
      | Attempt.ok s => RetryResult.ok s
      | Attempt.err e => RetryResult.retryError e

/-- How many times the underlying provider call is invoked by the retry
wrapper on a given outcome stream. -/
def attempts_made (call : Nat → Attempt) : Nat :=
  match call 1 with
  | Attempt.ok _ => 1
  | Attempt.err _ =>
    match call 2 with
    | Attempt.ok _ => 2
    | Attempt.err _ => 3

/-- An outcome stream whose first three provider calls raise and whose fourth
call would succeed. -/
def failingThriceStream : Nat → Attempt := fun n =>
  if n ≤ 3 then Attempt.err "provider down" else Attempt.ok "recovered"

/-! ## PDF text extraction (ingest_pdfs.py, extract_text_from_pdf) -/

/-- A PDF file as seen through PyMuPDF: fitz.open either raises, or yields a
page list on which each page.get_text() either yields that page's embedded
text or raises. -/
inductive PdfDoc : Type where
  | openFails (err : String)
  | opened (pages : List (Except String String))

/-- The page loop of extract_text_from_pdf: text accumulates page by page in
order; an exception from any page aborts the whole extraction. -/
def accumulatePages : List (Except String String) → String → Option String
  | [], acc => some acc
  | Except.error _ :: _, _ => none
  | Except.ok t :: rest, acc => accumulatePages rest (acc ++ t)

/-- extract_text_from_pdf: concatenates page.get_text() over all pages; any
exception (from fitz.open or from a page) is caught and None is returned. -/
def extract_text_from_pdf : PdfDoc → Option String
  | PdfDoc.openFails _ => none
  | PdfDoc.opened pages => accumulatePages pages ""

/-! ## Adding documents (rag_inference.py, add_documents) -/

/-- The Chroma collection's stored (id, document) pairs, as far as
add_documents observes them. -/
structure Collection : Type where
  entries : List (String × String)
deriving DecidableEq

/-- RAGInferencePipeline.add_documents: when ids is None it generates
doc_0 .. doc_(n-1) from list positions, then adds (id, document) pairs to the
collection; it returns the ids it used. -/
def add_documents (col : Collection) (documents : List String)
    (ids : Option (List String)) : Collection × List String :=
  let usedIds :=
    match ids with
    | some given => given
    | none => (List.range documents.length).map (fun i => "doc_" ++ toString i)
  (Collection.mk (col.entries ++ usedIds.zip documents), usedIds)

/-! ## Query pipeline (rag_inference.py, query)

The Chroma collection query and the LLM call are external collaborators: the
collection's answer (parallel lists of documents, distances and ids, at most
n_results long) and the LLM outcome are inputs of the model.  The score type σ
is kept abstract because the code only moves the distance values around. -/

/-- The result of self.collection.query(...): the first (and only) row of the
documents, distances and ids matrices Chroma returns. -/
structure ChromaResult (σ : Type) : Type where
  docs : List String
  dists : List σ
  ids : List String

/-- One formatted record of the query answer, with keys text, score, id. -/
structure FormattedDoc (σ : Type) : Type where
  text : String
  score : σ
  id : String
deriving DecidableEq

/-- The formatting loop of RAGInferencePipeline.query: for each index i below
len(results[...][0]) it builds the record from the i-th document, distance and
id.  (Chroma guarantees the three lists have equal length; the getD defaults
are never read under that contract.) -/
def format_results {σ : Type} [Inhabited σ] (r : ChromaResult σ) :
    List (FormattedDoc σ) :=
  (List.range r.docs.length).map (fun i =>
    FormattedDoc.mk (r.docs.getD i "") (r.dists.getD i default) (r.ids.getD i ""))

/-- Outcome of llm_handler.generate_response as observed by query: a returned
string or a raised exception. -/
inductive LLMOutcome : Type where
  | ok (s : String)
  | raised (e : String)

/-- The fallback string query stores when generation raises. -/
def fallback_message : String := "Error: Unable to generate LLM response"

/-- The dict query returns: the formatted documents and the llm_response
entry (None when no configured handler is available). -/
structure QueryResponse (σ : Type) : Type where
  documents : List (FormattedDoc σ)
  llm_response : Option String

/-- RAGInferencePipeline.query: if retrieval (encoding plus collection query)
raises, the exception propagates; otherwise the results are formatted, and —
when an LLM handler is configured — generation is attempted, any generation
exception being caught and replaced by the fallback message. -/
def rag_query {σ : Type} [Inhabited σ]
    (retrieval : Except String (ChromaResult σ)) (configured : Bool)
    (query_text : String)
    (llm : String → List (FormattedDoc σ) → LLMOutcome) :
    Except String (QueryResponse σ) :=
  match retrieval with
  | Except.error e => Except.error e
  | Except.ok r =>
    let formatted := format_results r
    let resp : Option String :=
      if configured then
        match llm query_text formatted with
        | LLMOutcome.ok s => some s
        | LLMOutcome.raised _ => some fallback_message
      else none
    Except.ok (QueryResponse.mk formatted resp)

/-! ## LLM handler: prompt assembly and backend dispatch
(llm_handler.py, generate_response body) -/

/-- The three interchangeable LLM backends. -/
inductive Backend : Type where
  | openai
  | anthropic
  | ollama
deriving DecidableEq

/-- The request generate_response hands to the selected backend. -/
structure SentRequest : Type where
  backend : Backend
  systemMsg : String
  prompt : String
  max_tokens : Nat
deriving DecidableEq

/-- The system message all three backends receive. -/
def assistant_system_message : String :=
  "You are a helpful assistant that provides information about traffic incidents."

/-- _generate_openai: sends the prompt to the OpenAI chat-completions API. -/
def generate_openai (prompt : String) (max_tokens : Nat) : SentRequest :=
  SentRequest.mk Backend.openai assistant_system_message prompt max_tokens

/-- _generate_anthropic: sends the prompt to the Anthropic messages API. -/
def generate_anthropic (prompt : String) (max_tokens : Nat) : SentRequest :=
  SentRequest.mk Backend.anthropic assistant_system_message prompt max_tokens

/-- _generate_ollama: posts the prompt to the local Ollama server. -/
def generate_ollama (prompt : String) (max_tokens : Nat) : SentRequest :=
  SentRequest.mk Backend.ollama assistant_system_message prompt max_tokens

/-- The fixed f-string template of generate_response, with the joined context
text and the query embedded. -/
def build_prompt (context_text query : String) : String :=
  "Based on the following traffic incident information, please answer the query.\n\nContext information:\n"
    ++ context_text
    ++ "\n\nQuery: " ++ query
    ++ "\n\nPlease provide a clear and concise response based only on the information provided in the context."

/-- The body of generate_response: joins the text fields of the context
documents with newlines, fills the template, and dispatches the prompt to the
branch matching self.provider (the if/elif chain; None if no branch matches,
which __init__ rules out). -/
def generate_response {σ : Type} (provider : String) (query : String)
    (context_docs : List (FormattedDoc σ)) (max_tokens : Nat) :
    Option SentRequest :=
  let context_text := String.intercalate "\n" (context_docs.map FormattedDoc.text)
  let prompt := build_prompt context_text query
  if provider = "openai" then some (generate_openai prompt max_tokens)
  else if provider = "anthropic" then some (generate_anthropic prompt max_tokens)
  else if provider = "ollama" then some (generate_ollama prompt max_tokens)
  else none

/-! ## LLM handler construction (llm_handler.py, __init__) -/

/-- Python str.lower() on the provider string (ASCII provider names). -/
def pyLower (s : String) : String := String.mk (s.data.map Char.toLower)

/-- The keys of SUPPORTED_MODELS. -/
def supported_providers : List String := ["openai", "anthropic", "ollama"]

/-- Which provider-specific initializer _init runs. -/
inductive InitAction : Type where
  | initOpenai
  | initAnthropic
  | initOllama
deriving DecidableEq

/-- The if/elif chain that picks the provider-specific initializer (none if no
branch matches; unreachable after validation). -/
def initClient (p : String) : Option InitAction :=
  if p = "openai" then some InitAction.initOpenai
  else if p = "anthropic" then some InitAction.initAnthropic
  else if p = "ollama" then some InitAction.initOllama
  else none

/-- LLMHandler.__init__: lower-cases the provider, raises ValueError when it
is not a SUPPORTED_MODELS key, and otherwise runs the matching initializer. -/
def llm_handler_init (provider : String) : Except String (Option InitAction) :=
  let p := pyLower provider
  if p ∈ supported_providers then Except.ok (initClient p)
  else
    Except.error ("Unsupported provider: " ++ p)

/-! ## PDF rendering (traffic_api_to_rag.py, create_incident_pdfs)

Only the returned path list is in scope; the drawn PDF contents are rendering
plumbing the spec excludes.  A DataFrame row is an ordered field list; the
row index idx of df.iterrows() is the list position. -/

/-- One incident row of the DataFrame: its (column, value) pairs. -/
structure Incident : Type where
  fields : List (String × String)
deriving DecidableEq

/-- pandas Series.get(key, default) on an incident row. -/
def Incident.get (inc : Incident) (key dflt : String) : String :=
  match inc.fields.lookup key with
  | some v => v
  | none => dflt

/-- The path of the individual PDF written for the incident at row index idx:
output_dir/incident_<traffic_report_id or unknown_idx>.pdf -/
def incident_pdf_path (output_dir : String) (idx : Nat) (inc : Incident) :
    String :=
  output_dir ++ "/incident_"
    ++ inc.get "traffic_report_id" ("unknown_" ++ toString idx) ++ ".pdf"

/-- The path of the summary PDF holding all incidents. -/
def summary_pdf_path (output_dir : String) : String :=
  output_dir ++ "/all_incidents_summary.pdf"

/-- create_incident_pdfs: the loop appends one individual PDF path per row to
pdf_files, and the summary path is appended after the loop; the list of all
written paths is returned. -/
def create_incident_pdfs (df : List Incident) (output_dir : String) :
    List String :=
  let pdf_files := df.enum.foldl
    (fun acc p => acc ++ [incident_pdf_path output_dir p.1 p.2]) []
  pdf_files ++ [summary_pdf_path output_dir]

/-! ## Fetching traffic data (traffic_api_to_rag.py, fetch_traffic_data)

The HTTP layer is an external collaborator: a function from the request URL to
either a raised request exception or a response carrying a status code and the
outcome of response.json(). -/

/-- The Austin open-data endpoint. -/
def API_URL : String := "https://data.austintexas.gov/resource/dx9v-zd7x.json"

/-- An HTTP response: its status code and the parse outcome of its body as a
list of incident records (records kept as raw strings; their schema is out of
scope). -/
structure HttpResponse : Type where
  status : Nat
  parsed : Except String (List String)

/-- The URL fetch_traffic_data requests. -/
def fetch_url (limit : Nat) : String :=
  API_URL ++ "?$limit=" ++ toString limit ++ "&$order=published_date DESC"

/-- fetch_traffic_data: issues the GET; a request exception propagates;
raise_for_status raises on any 4xx/5xx status; otherwise the parsed JSON list
is returned (a parse failure also propagates). -/
def fetch_traffic_data (http : String → Except String HttpResponse)
    (limit : Nat) : Except String (List String) :=
  match http (fetch_url limit) with
  | Except.error e => Except.error e
  | Except.ok resp =>
    if 400 ≤ resp.status ∧ resp.status < 600 then
      Except.error ("HTTPError for url: " ++ fetch_url limit)
    else resp.parsed

/-! ## Upload endpoint (pdf_processor.py, upload_and_index_pdf)

The request, the save/extract outcomes and the WEB_AI_INDEX_PATH configuration
are inputs.  The finally block removes the saved file when it exists (we model
os.remove as succeeding); the HandlerResult records the response status,
whether file.save wrote the file, and whether the file still exists in the
upload folder when the handler returns. -/

/-- The relevant parts of the incoming Flask request. -/
structure UploadRequest : Type where
  hasFilePart : Bool
  filename : String
deriving DecidableEq

/-- What happens inside the try block once the file is accepted: file.save
raises, text extraction raises, or the full text is extracted. -/
inductive ProcessOutcome : Type where
  | saveRaises (e : String)
  | extractRaises (e : String)
  | extracted (text : String)
deriving DecidableEq

/-- Observable outcome of the handler. -/
structure HandlerResult : Type where
  status : Nat
  saved : Bool
  fileRemains : Bool
deriving DecidableEq

/-- file.filename.lower().endswith(".pdf"). -/
def is_pdf_filename (s : String) : Bool :=
  ".pdf".data.isSuffixOf (pyLower s).data

/-- upload_and_index_pdf: 400 when the file part is missing, the filename is
empty, or the filename is not a .pdf; otherwise the file is saved and
processed inside try/except/finally — 500 if save or extraction raises or
WEB_AI_INDEX_PATH is unset, 200 on success — and the finally block removes the
saved file whenever it exists. -/
def upload_and_index_pdf (indexPathConfigured : Bool) (req : UploadRequest)
    (proc : ProcessOutcome) : HandlerResult :=
  if req.hasFilePart = false then HandlerResult.mk 400 false false
  else if req.filename = "" then HandlerResult.mk 400 false false
  else if req.filename ≠ "" ∧ is_pdf_filename req.filename then
    match proc with
    | ProcessOutcome.saveRaises _ => HandlerResult.mk 500 false false
    | ProcessOutcome.extractRaises _ => HandlerResult.mk 500 true false
    | ProcessOutcome.extracted _ =>
      if indexPathConfigured then HandlerResult.mk 200 true false
      else HandlerResult.mk 500 true false
  else HandlerResult.mk 400 false false

/-! ## Helper lemmas -/

theorem foldl_append_string (l : List String) (s : String) :
    l.foldl (fun a b => a ++ b) s = s ++ l.foldl (fun a b => a ++ b) "" := by
  induction l generalizing s with
  | nil => simp
  | cons t ts ih =>
    simp only [List.foldl_cons]
    rw [ih (s ++ t), ih ("" ++ t)]
    simp [String.append_assoc]

theorem string_join_cons (t : String) (ts : List String) :
    String.join (t :: ts) = t ++ String.join ts := by
  simp only [String.join, List.foldl_cons]
  rw [foldl_append_string]
  simp

theorem accumulatePages_all_ok (texts : List String) (acc : String) :
    accumulatePages (texts.map Except.ok) acc = some (acc ++ String.join texts) := by
  induction texts generalizing acc with
  | nil => simp [accumulatePages, String.join]
  | cons t ts ih =>
    simp only [List.map_cons, accumulatePages, ih, string_join_cons,
      String.append_assoc]

theorem accumulatePages_has_error (pages : List (Except String String))
    (acc : String) (h : ∃ p ∈ pages, ∀ t, p ≠ Except.ok t) :
    accumulatePages pages acc = none := by
  induction pages generalizing acc with
  | nil =>
    rcases h with ⟨p, hp, _⟩
    cases hp
  | cons p rest ih =>
    cases p with
    | error e => simp [accumulatePages]
    | ok t =>
      rcases h with ⟨q, hq, hqt⟩
      rcases List.mem_cons.mp hq with rfl | hq2
      · exact absurd rfl (hqt t)
      · exact ih _ ⟨q, hq2, hqt⟩

theorem getD_map_range {α : Type} (f : Nat → α) (n i : Nat) (d : α)
    (h : i < n) : ((List.range n).map f).getD i d = f i := by
  rw [List.getD_eq_getElem?_getD, List.getElem?_map, List.getElem?_range h]
  rfl

/-! ## Claim theorems -/

/-- C1 counterexample: on a provider-call stream whose first three calls raise
and whose fourth call would succeed, the retry wrapper of generate_response
makes only three attempts in total (the initial call plus two retries) and
propagates a failure; the claimed policy of three retries after the first
failure would have reached the successful fourth call and returned its
string. -/
theorem c1_retry_counterexample :
    failingThriceStream 4 = Attempt.ok "recovered"
    ∧ attempts_made failingThriceStream = 3
    ∧ retried_generate_response failingThriceStream =
        RetryResult.retryError "provider down"
    ∧ retried_generate_response failingThriceStream ≠
        RetryResult.ok "recovered" := by
  refine ⟨by decide, by decide, by decide, by decide⟩

/-- C1 (amended): the tenacity wrapper on generate_response makes at most
three provider calls in total (the initial call plus two retries, the clamped
exponential waits between them both evaluating to 4); the first successful
attempt among the first three has its generated string returned; and when all
three attempts fail, a RetryError wrapping the third attempt's exception
propagates to the caller. -/
theorem c1_retry_semantics (call : Nat → Attempt) :
    attempts_made call ≤ 3
    ∧ (∀ s n, 1 ≤ n → n ≤ 3 → call n = Attempt.ok s →
        (∀ m, 1 ≤ m → m < n → ∃ e, call m = Attempt.err e) →
        retried_generate_response call = RetryResult.ok s)
    ∧ (∀ e1 e2 e3, call 1 = Attempt.err e1 → call 2 = Attempt.err e2 →
        call 3 = Attempt.err e3 →
        retried_generate_response call = RetryResult.retryError e3)
    ∧ generate_response_waits = [4, 4] := by
  refine ⟨?_, ?_, ?_, by decide⟩
  · cases h1 : call 1 with
    | ok s => simp [attempts_made, h1]
    | err m =>
      cases h2 : call 2 with
      | ok s => simp [attempts_made, h1, h2]
      | err m2 => simp [attempts_made, h1, h2]
  · intro s n hn1 hn3 hok hprev
    interval_cases n
    · simp [retried_generate_response, hok]
    · obtain ⟨e, h1⟩ := hprev 1 (by omega) (by omega)
      simp [retried_generate_response, h1, hok]
    · obtain ⟨e1, h1⟩ := hprev 1 (by omega) (by omega)
      obtain ⟨e2, h2⟩ := hprev 2 (by omega) (by omega)
      simp [retried_generate_response, h1, h2, hok]
  · intro e1 e2 e3 h1 h2 h3
    simp [retried_generate_response, h1, h2, h3]

/-- Witness for C1: on a stream of permanent failures the wrapper propagates a
RetryError wrapping the third failure. -/
theorem c1_retry_semantics_witness :
    retried_generate_response (fun _ => Attempt.err "down") =
      RetryResult.retryError "down" :=
  (c1_retry_semantics (fun _ => Attempt.err "down")).2.2.1
    "down" "down" "down" rfl rfl rfl

/-- C2: when retrieval succeeds but LLM generation raises on a configured
handler, query does not raise: it returns (Except.ok) the response whose
documents entry is the formatted retrieval result unchanged and whose
llm_response entry is the fallback message. -/
theorem c2_llm_failure_fallback {σ : Type} [Inhabited σ] (q : String)
    (r : ChromaResult σ)
    (llm : String → List (FormattedDoc σ) → LLMOutcome) (e : String)
    (hfail : llm q (format_results r) = LLMOutcome.raised e) :
    rag_query (Except.ok r) true q llm =
      Except.ok (QueryResponse.mk (format_results r) (some fallback_message)) := by
  simp [rag_query, hfail]

/-- Witness for C2: a concrete one-document retrieval with a raising LLM call
returns the documents and the fallback string. -/
theorem c2_llm_failure_fallback_witness :
    rag_query (Except.ok (ChromaResult.mk ["incident text"] [(7 : Nat)] ["doc_0"]))
        true "what happened?" (fun _ _ => LLMOutcome.raised "api down") =
      Except.ok (QueryResponse.mk
        [FormattedDoc.mk "incident text" 7 "doc_0"]
        (some "Error: Unable to generate LLM response")) := by
  have h := c2_llm_failure_fallback "what happened?"
      (ChromaResult.mk ["incident text"] [(7 : Nat)] ["doc_0"])
      (fun _ _ => LLMOutcome.raised "api down") "api down" rfl
  simpa [format_results, fallback_message] using h

/-- C3: query returns a dict whose documents entry has exactly one formatted
record per document the collection returned (hence at most top_k records under
Chroma's n_results contract), the i-th record holding the i-th document,
distance and id in the collection's order. -/
theorem c3_query_formats_results {σ : Type} [Inhabited σ] (configured : Bool)
    (q : String) (r : ChromaResult σ)
    (llm : String → List (FormattedDoc σ) → LLMOutcome) (top_k : Nat)
    (hk : r.docs.length ≤ top_k) :
    ∃ resp, rag_query (Except.ok r) configured q llm = Except.ok resp
    ∧ resp.documents.length = r.docs.length
    ∧ resp.documents.length ≤ top_k
    ∧ ∀ i, i < r.docs.length →
        resp.documents.getD i (FormattedDoc.mk "" default "") =
          FormattedDoc.mk (r.docs.getD i "") (r.dists.getD i default)
            (r.ids.getD i "") := by
  refine ⟨_, rfl, ?_, ?_, ?_⟩
  · simp [format_results]
  · simpa [format_results] using hk
  · intro i hi
    simpa [format_results] using
      getD_map_range
        (fun i => FormattedDoc.mk (r.docs.getD i "") (r.dists.getD i default)
          (r.ids.getD i ""))
        r.docs.length i (FormattedDoc.mk "" default "") hi

/-- Witness for C3: a concrete two-document retrieval with top_k = 5 formats
both records positionally. -/
theorem c3_query_formats_results_witness :
    ∃ resp,
      rag_query
          (Except.ok (ChromaResult.mk ["a", "b"] [(1 : Nat), 2] ["i0", "i1"]))
          false "q" (fun _ _ => LLMOutcome.ok "ans") = Except.ok resp
      ∧ resp.documents.length = 2
      ∧ resp.documents.getD 0 (FormattedDoc.mk "" default "") =
          FormattedDoc.mk "a" 1 "i0"
      ∧ resp.documents.getD 1 (FormattedDoc.mk "" default "") =
          FormattedDoc.mk "b" 2 "i1" := by
  obtain ⟨resp, h1, h2, _, h4⟩ := c3_query_formats_results false "q"
    (ChromaResult.mk ["a", "b"] [(1 : Nat), 2] ["i0", "i1"])
    (fun _ _ => LLMOutcome.ok "ans") 5 (by decide)
  refine ⟨resp, h1, h2, ?_, ?_⟩
  · simpa using h4 0 (by decide)
  · simpa using h4 1 (by decide)

/-- C4: generate_response joins the text fields of the context documents with
newline separators, embeds the joined context and the query into the fixed
template, and hands that one prompt to the single backend selected by the
configured provider. -/
theorem c4_prompt_and_dispatch {σ : Type} (provider : String) (q : String)
    (docs : List (FormattedDoc σ)) (mt : Nat)
    (hp : provider = "openai" ∨ provider = "anthropic" ∨ provider = "ollama") :
    ∃ req, generate_response provider q docs mt = some req
    ∧ req.prompt =
        build_prompt (String.intercalate "\n" (docs.map FormattedDoc.text)) q
    ∧ (provider = "openai" → req.backend = Backend.openai)
    ∧ (provider = "anthropic" → req.backend = Backend.anthropic)
    ∧ (provider = "ollama" → req.backend = Backend.ollama) := by
  rcases hp with rfl | rfl | rfl
  · exact ⟨_, rfl, rfl, fun _ => rfl, fun h => absurd h (by decide),
      fun h => absurd h (by decide)⟩
  · refine ⟨generate_anthropic
        (build_prompt (String.intercalate "\n" (docs.map FormattedDoc.text)) q)
        mt, ?_, rfl, fun h => absurd h (by decide), fun _ => rfl,
      fun h => absurd h (by decide)⟩
    simp [generate_response]
  · refine ⟨generate_ollama
        (build_prompt (String.intercalate "\n" (docs.map FormattedDoc.text)) q)
        mt, ?_, rfl, fun h => absurd h (by decide),
      fun h => absurd h (by decide), fun _ => rfl⟩
    simp [generate_response]

/-- Witness for C4: with the anthropic provider the request goes to the
Anthropic backend. -/
theorem c4_prompt_and_dispatch_witness :
    (generate_response "anthropic" "q" ([] : List (FormattedDoc Nat)) 500).map
        SentRequest.backend = some Backend.anthropic := by
  obtain ⟨req, h1, _, _, h4, _⟩ :=
    c4_prompt_and_dispatch "anthropic" "q" ([] : List (FormattedDoc Nat)) 500
      (Or.inr (Or.inl rfl))
  simp [h1, h4 rfl]

/-- C8: extract_text_from_pdf returns the page-order concatenation of the
embedded text of every page when the document opens and every page reads;
when fitz.open fails, or any page's text extraction fails, it returns None
instead of raising. -/
theorem c8_extract_text (texts : List String) (e : String)
    (pages : List (Except String String))
    (hbad : ∃ p ∈ pages, ∀ t, p ≠ Except.ok t) :
    extract_text_from_pdf (PdfDoc.opened (texts.map Except.ok)) =
      some (String.join texts)
    ∧ extract_text_from_pdf (PdfDoc.openFails e) = none
    ∧ extract_text_from_pdf (PdfDoc.opened pages) = none := by
  refine ⟨?_, rfl, ?_⟩
  · simpa using accumulatePages_all_ok texts ""
  · exact accumulatePages_has_error pages "" hbad

/-- Witness for C8: a two-page document concatenates in order, and a document
with a failing page yields None. -/
theorem c8_extract_text_witness :
    extract_text_from_pdf
        (PdfDoc.opened [Except.ok "page one ", Except.ok "page two"]) =
      some "page one page two"
    ∧ extract_text_from_pdf
        (PdfDoc.opened [Except.ok "page one ", Except.error "damaged"]) =
      none := by
  have h := c8_extract_text ["page one ", "page two"] "io error"
    [Except.ok "page one ", Except.error "damaged"]
    ⟨Except.error "damaged", by simp, fun t => by simp⟩
  exact ⟨h.1, h.2.2⟩

/-- C9: with ids=None, add_documents assigns doc_0 .. doc_(n-1) purely from
list positions — the same ids whatever the collection already holds — so two
successive auto-ID calls both use the id doc_0 and hence overlap. -/
theorem c9_auto_ids_positional (col col2 : Collection)
    (docs docs2 : List String) (h1 : 0 < docs.length) (h2 : 0 < docs2.length) :
    (add_documents col docs none).2 = (add_documents col2 docs none).2
    ∧ (add_documents col docs none).2.length = docs.length
    ∧ (∀ i, i < docs.length →
        (add_documents col docs none).2.getD i "" = "doc_" ++ toString i)
    ∧ "doc_0" ∈ (add_documents col docs none).2
    ∧ "doc_0" ∈ (add_documents col2 docs2 none).2 := by
  refine ⟨rfl, by simp [add_documents], ?_, ?_, ?_⟩
  · intro i hi
    simpa [add_documents] using
      getD_map_range (fun i => "doc_" ++ toString i) docs.length i "" hi
  · have h0 : (0 : Nat) ∈ List.range docs.length := List.mem_range.mpr h1
    simpa [add_documents] using List.mem_map.mpr ⟨0, h0, rfl⟩
  · have h0 : (0 : Nat) ∈ List.range docs2.length := List.mem_range.mpr h2
    simpa [add_documents] using List.mem_map.mpr ⟨0, h0, rfl⟩

/-- Witness for C9: the id doc_0 is assigned by two successive auto-ID calls
on a non-empty collection and on a fresh one. -/
theorem c9_auto_ids_witness :
    "doc_0" ∈ (add_documents (Collection.mk [("doc_0", "old")])
        ["new text"] none).2 :=
  (c9_auto_ids_positional (Collection.mk []) (Collection.mk [("doc_0", "old")])
      ["alpha", "beta"] ["new text"] (by decide) (by decide)).2.2.2.2

theorem foldl_snoc_eq_map {α β : Type} (f : α → β) (l : List α)
    (acc : List β) :
    l.foldl (fun a x => a ++ [f x]) acc = acc ++ l.map f := by
  induction l generalizing acc with
  | nil => simp
  | cons x xs ih => simp [ih]

/-- C5: create_incident_pdfs returns n + 1 paths for n incidents: the i-th
path is the individual PDF path of the i-th incident (derived from its
traffic_report_id, or unknown_i when that column is absent) and the final path
is the summary PDF holding all incidents. -/
theorem c5_create_incident_pdfs (df : List Incident) (d : String) :
    (create_incident_pdfs df d).length = df.length + 1
    ∧ (∀ i, i < df.length →
        (create_incident_pdfs df d).getD i "" =
          incident_pdf_path d i (df.getD i (Incident.mk [])))
    ∧ (create_incident_pdfs df d).getD df.length "" = summary_pdf_path d := by
  have hrepr : create_incident_pdfs df d =
      df.enum.map (fun p => incident_pdf_path d p.1 p.2)
        ++ [summary_pdf_path d] := by
    simp [create_incident_pdfs, foldl_snoc_eq_map]
  refine ⟨?_, ?_, ?_⟩
  · simp [hrepr, List.enum_length]
  · intro i hi
    have hlen : i < (df.enum.map
        (fun p => incident_pdf_path d p.1 p.2)).length := by
      simpa [List.enum_length] using hi
    rw [hrepr, List.getD_append _ _ _ _ hlen, List.getD_eq_getElem?_getD,
      List.getElem?_map, List.getElem?_enum, List.getElem?_eq_getElem hi]
    simp [List.getD_eq_getElem?_getD, List.getElem?_eq_getElem hi]
  · rw [hrepr, List.getD_eq_getElem?_getD, List.getElem?_append_right
      (by simp [List.enum_length])]
    simp [List.enum_length]

/-- Witness for C5: two incidents, one with a traffic_report_id and one
without, give three paths with the summary last. -/
theorem c5_create_incident_pdfs_witness :
    (create_incident_pdfs
        [Incident.mk [("traffic_report_id", "abc123")], Incident.mk []]
        "traffic_pdfs").length = 3
    ∧ (create_incident_pdfs
        [Incident.mk [("traffic_report_id", "abc123")], Incident.mk []]
        "traffic_pdfs").getD 0 "" = "traffic_pdfs/incident_abc123.pdf"
    ∧ (create_incident_pdfs
        [Incident.mk [("traffic_report_id", "abc123")], Incident.mk []]
        "traffic_pdfs").getD 1 "" = "traffic_pdfs/incident_unknown_1.pdf"
    ∧ (create_incident_pdfs
        [Incident.mk [("traffic_report_id", "abc123")], Incident.mk []]
        "traffic_pdfs").getD 2 "" = "traffic_pdfs/all_incidents_summary.pdf" := by
  have h := c5_create_incident_pdfs
    [Incident.mk [("traffic_report_id", "abc123")], Incident.mk []]
    "traffic_pdfs"
  refine ⟨h.1, ?_, ?_, h.2.2⟩
  · simpa [incident_pdf_path, Incident.get, List.lookup] using
      h.2.1 0 (by decide)
  · simpa [incident_pdf_path, Incident.get, List.lookup] using
      h.2.1 1 (by decide)

/-- C6: constructing an LLMHandler with a provider string whose lower-casing
is none of openai, anthropic, ollama raises ValueError; for each of those
three (case-insensitively) the matching backend initializer runs. -/
theorem c6_provider_validation (provider : String) :
    (pyLower provider ≠ "openai" → pyLower provider ≠ "anthropic" →
      pyLower provider ≠ "ollama" →
      llm_handler_init provider =
        Except.error ("Unsupported provider: " ++ pyLower provider))
    ∧ (pyLower provider = "openai" →
        llm_handler_init provider = Except.ok (some InitAction.initOpenai))
    ∧ (pyLower provider = "anthropic" →
        llm_handler_init provider = Except.ok (some InitAction.initAnthropic))
    ∧ (pyLower provider = "ollama" →
        llm_handler_init provider = Except.ok (some InitAction.initOllama)) := by
  refine ⟨?_, ?_, ?_, ?_⟩
  · intro h1 h2 h3
    simp [llm_handler_init, supported_providers, h1, h2, h3]
  · intro h
    simp [llm_handler_init, supported_providers, initClient, h]
  · intro h
    simp [llm_handler_init, supported_providers, initClient, h]
  · intro h
    simp [llm_handler_init, supported_providers, initClient, h]

/-- Witness for C6: OpenAI (mixed case) selects the OpenAI initializer and a
fourth provider name is rejected. -/
theorem c6_provider_validation_witness :
    llm_handler_init "OpenAI" = Except.ok (some InitAction.initOpenai)
    ∧ llm_handler_init "bedrock" =
        Except.error ("Unsupported provider: " ++ pyLower "bedrock") :=
  ⟨(c6_provider_validation "OpenAI").2.1 (by decide),
    (c6_provider_validation "bedrock").1 (by decide) (by decide) (by decide)⟩

/-- C7: fetch_traffic_data requests the API URL with a $limit of limit records
ordered by published_date descending; data is returned only from a response
whose status raise_for_status accepts, and a request exception or a 4xx/5xx
status yields an error, never data. -/
theorem c7_fetch_url_and_errors (http : String → Except String HttpResponse)
    (limit : Nat) :
    fetch_url limit =
      API_URL ++ "?$limit=" ++ toString limit ++ "&$order=published_date DESC"
    ∧ (∀ d, fetch_traffic_data http limit = Except.ok d →
        ∃ status, http (fetch_url limit) =
            Except.ok (HttpResponse.mk status (Except.ok d))
          ∧ ¬(400 ≤ status ∧ status < 600))
    ∧ (∀ e, http (fetch_url limit) = Except.error e →
        fetch_traffic_data http limit = Except.error e)
    ∧ (∀ resp, http (fetch_url limit) = Except.ok resp →
        400 ≤ resp.status → resp.status < 600 →
        fetch_traffic_data http limit =
          Except.error ("HTTPError for url: " ++ fetch_url limit)) := by
  refine ⟨rfl, ?_, ?_, ?_⟩
  · intro d hd
    cases hh : http (fetch_url limit) with
    | error e => simp [fetch_traffic_data, hh] at hd
    | ok resp =>
      cases resp with
      | mk status parsed =>
        by_cases hb : 400 ≤ status ∧ status < 600
        · simp [fetch_traffic_data, hh, hb] at hd
        · simp only [fetch_traffic_data, hh] at hd
          rw [if_neg hb] at hd
          exact ⟨status, by rw [hd], hb⟩
  · intro e he
    simp [fetch_traffic_data, he]
  · intro resp h4 h5 h6
    cases resp with
    | mk status parsed =>
      simp only [fetch_traffic_data, h4]
      rw [if_pos ⟨h5, h6⟩]

/-- Witness for C7: a raised request exception propagates out of
fetch_traffic_data. -/
theorem c7_fetch_witness :
    fetch_traffic_data (fun _ => Except.error "connection refused") 50 =
      Except.error "connection refused" :=
  (c7_fetch_url_and_errors (fun _ => Except.error "connection refused")
    50).2.2.1 "connection refused" rfl

/-- C10: for a request whose filename ends case-insensitively in .pdf, the
handler leaves no saved file in the upload folder on return, whether saving,
extraction or indexing succeeded or failed; a missing file part, an empty
filename, or a non-PDF filename is answered with 400 and nothing is saved. -/
theorem c10_upload_cleanup (cfg : Bool) (req : UploadRequest)
    (proc : ProcessOutcome) :
    (req.hasFilePart = true → req.filename ≠ "" →
      is_pdf_filename req.filename = true →
      (upload_and_index_pdf cfg req proc).fileRemains = false)
    ∧ (req.hasFilePart = false →
        upload_and_index_pdf cfg req proc = HandlerResult.mk 400 false false)
    ∧ (req.filename = "" →
        upload_and_index_pdf cfg req proc = HandlerResult.mk 400 false false)
    ∧ (is_pdf_filename req.filename = false →
        upload_and_index_pdf cfg req proc = HandlerResult.mk 400 false false) := by
  refine ⟨?_, ?_, ?_, ?_⟩
  · intro h1 h2 h3
    cases proc with
    | saveRaises e => simp [upload_and_index_pdf, h1, h2, h3]
    | extractRaises e => simp [upload_and_index_pdf, h1, h2, h3]
    | extracted t => cases cfg <;> simp [upload_and_index_pdf, h1, h2, h3]
  · intro h
    simp [upload_and_index_pdf, h]
  · intro h
    by_cases hfp : req.hasFilePart = false <;>
      simp [upload_and_index_pdf, hfp, h]
  · intro h
    by_cases hfp : req.hasFilePart = false
    · simp [upload_and_index_pdf, hfp]
    · by_cases hfn : req.filename = "" <;>
        simp [upload_and_index_pdf, hfp, hfn, h]

/-- Witness for C10: an upper-case .PDF upload leaves no file behind and a
.txt upload is rejected with 400. -/
theorem c10_upload_cleanup_witness :
    (upload_and_index_pdf true (UploadRequest.mk true "Report.PDF")
        (ProcessOutcome.extracted "text")).fileRemains = false
    ∧ upload_and_index_pdf true (UploadRequest.mk true "notes.txt")
        (ProcessOutcome.extracted "text") = HandlerResult.mk 400 false false :=
  ⟨(c10_upload_cleanup true (UploadRequest.mk true "Report.PDF")
      (ProcessOutcome.extracted "text")).1 rfl (by decide) (by decide),
    (c10_upload_cleanup true (UploadRequest.mk true "notes.txt")
      (ProcessOutcome.extracted "text")).2.2.2 (by decide)⟩

end RiverRAG
